import Mathlib

set_option maxRecDepth 8192

/-! Shallow embedding of src/script/standard.cpp of tapyrus-core: the script
template matchers, the opcode syntax validator, the Solver dispatcher, the
destination extractors and the script builders.  A script is a byte sequence,
embedded as a `List Nat` of byte values. -/

/-! Opcode byte values of the standard script encoding (these byte values are
fixed by the external script header; the spec lists the template-relevant
ones explicitly). -/

abbrev OP_0 : Nat := 0x00
abbrev OP_PUSHDATA1 : Nat := 0x4c
abbrev OP_PUSHDATA2 : Nat := 0x4d
abbrev OP_PUSHDATA4 : Nat := 0x4e
abbrev OP_RESERVED : Nat := 0x50
abbrev OP_1 : Nat := 0x51
abbrev OP_16 : Nat := 0x60
abbrev OP_VER : Nat := 0x62
abbrev OP_VERIF : Nat := 0x65
abbrev OP_VERNOTIF : Nat := 0x66
abbrev OP_RETURN : Nat := 0x6a
abbrev OP_DUP : Nat := 0x76
abbrev OP_CAT : Nat := 0x7e
abbrev OP_SUBSTR : Nat := 0x7f
abbrev OP_LEFT : Nat := 0x80
abbrev OP_RIGHT : Nat := 0x81
abbrev OP_INVERT : Nat := 0x83
abbrev OP_AND : Nat := 0x84
abbrev OP_OR : Nat := 0x85
abbrev OP_XOR : Nat := 0x86
abbrev OP_EQUAL : Nat := 0x87
abbrev OP_EQUALVERIFY : Nat := 0x88
abbrev OP_RESERVED1 : Nat := 0x89
abbrev OP_RESERVED2 : Nat := 0x8a
abbrev OP_2MUL : Nat := 0x8d
abbrev OP_2DIV : Nat := 0x8e
abbrev OP_MUL : Nat := 0x95
abbrev OP_DIV : Nat := 0x96
abbrev OP_MOD : Nat := 0x97
abbrev OP_LSHIFT : Nat := 0x98
abbrev OP_RSHIFT : Nat := 0x99
abbrev OP_HASH160 : Nat := 0xa9
abbrev OP_CHECKSIG : Nat := 0xac
abbrev OP_CHECKMULTISIG : Nat := 0xae
abbrev OP_NOP1 : Nat := 0xb0
abbrev OP_NOP4 : Nat := 0xb3
abbrev OP_NOP5 : Nat := 0xb4
abbrev OP_NOP6 : Nat := 0xb5
abbrev OP_NOP7 : Nat := 0xb6
abbrev OP_NOP8 : Nat := 0xb7
abbrev OP_NOP9 : Nat := 0xb8
abbrev OP_NOP10 : Nat := 0xb9

/-- Modelled from the spec: the system-specific COLOR opcode used to gate
colored-coin scripts.  Its exact byte value lives in the external script
header; no claim depends on the particular value, only on it being a plain
single-byte opcode outside the push range and the small-integer range. -/
abbrev OP_COLOR : Nat := 0xbc

/-- Modelled from the spec: external constant, the maximum size of a single
pushed script element. -/
abbrev MAX_SCRIPT_ELEMENT_SIZE : Nat := 520

/-- Modelled from the spec: external constant, the maximum count of
non-push, non-small-integer opcodes per script. -/
abbrev MAX_OPS_PER_SCRIPT : Nat := 201

/-- Modelled from the spec: the external ScriptReader tokenization primitive
(`CScript::GetOp`), which this core consumes but does not implement.  It
reads one instruction from the byte stream: byte values 0x01..0x4b push that
many following bytes, OP_PUSHDATA1/2/4 read an explicit little-endian length
first, and any other byte is a plain opcode carrying no data.  It fails when
a declared push length exceeds the remaining buffer.  Returns the opcode,
the pushed data and the remaining bytes. -/
def GetScriptOp : List Nat → Option (Nat × List Nat × List Nat)
  | [] => none
  | b :: rest =>
    if b ≤ 75 then
      if rest.length < b then none else some (b, rest.take b, rest.drop b)
    else if b = 76 then
      match rest with
      | [] => none
      | n :: r2 => if r2.length < n then none else some (76, r2.take n, r2.drop n)
    else if b = 77 then
      match rest with
      | n0 :: n1 :: r2 =>
        if r2.length < n0 + 256 * n1 then none
        else some (77, r2.take (n0 + 256 * n1), r2.drop (n0 + 256 * n1))
      | _ => none
    else if b = 78 then
      match rest with
      | n0 :: n1 :: n2 :: n3 :: r2 =>
        if r2.length < n0 + 256 * n1 + 65536 * n2 + 16777216 * n3 then none
        else some (78, r2.take (n0 + 256 * n1 + 65536 * n2 + 16777216 * n3),
          r2.drop (n0 + 256 * n1 + 65536 * n2 + 16777216 * n3))
      | _ => none
    else some (b, [], rest)

theorem GetScriptOp_drop {l : List Nat} {op : Nat} {d r : List Nat}
    (h : GetScriptOp l = some (op, d, r)) :
    ∃ k, 0 < k ∧ k ≤ l.length ∧ r = l.drop k := by
  match l with
  | [] => simp [GetScriptOp] at h
  | b :: rest =>
    simp only [GetScriptOp] at h
    split at h
    case isTrue hb =>
      split at h
      case isTrue => exact absurd h (by simp)
      case isFalse hlen =>
        simp only [Option.some.injEq, Prod.mk.injEq] at h
        obtain ⟨h1, h2, h3⟩ := h
        refine ⟨1 + b, by omega, by simp; omega, ?_⟩
        simp [← h3, List.drop_succ_cons, Nat.add_comm 1 b]
    case isFalse =>
      split at h
      case isTrue =>
        match rest with
        | [] => simp at h
        | n :: r2 =>
          simp only at h
          split at h
          case isTrue => exact absurd h (by simp)
          case isFalse hlen =>
            simp only [Option.some.injEq, Prod.mk.injEq] at h
            obtain ⟨h1, h2, h3⟩ := h
            refine ⟨2 + n, by omega, by simp at hlen ⊢; omega, ?_⟩
            rw [← h3]
            simp [List.drop_succ_cons, Nat.add_comm 2 n, ← List.drop_drop]
      case isFalse =>
        split at h
        case isTrue =>
          match rest with
          | [] => simp at h
          | [n0] => simp at h
          | n0 :: n1 :: r2 =>
            simp only at h
            split at h
            case isTrue => exact absurd h (by simp)
            case isFalse hlen =>
              simp only [Option.some.injEq, Prod.mk.injEq] at h
              obtain ⟨h1, h2, h3⟩ := h
              refine ⟨3 + (n0 + 256 * n1), by omega, by simp at hlen ⊢; omega, ?_⟩
              rw [← h3]
              simp [List.drop_succ_cons, Nat.add_comm 3 (n0 + 256 * n1), ← List.drop_drop]
        case isFalse =>
          split at h
          case isTrue =>
            match rest with
            | [] => simp at h
            | [n0] => simp at h
            | [n0, n1] => simp at h
            | [n0, n1, n2] => simp at h
            | n0 :: n1 :: n2 :: n3 :: r2 =>
              simp only at h
              split at h
              case isTrue => exact absurd h (by simp)
              case isFalse hlen =>
                simp only [Option.some.injEq, Prod.mk.injEq] at h
                obtain ⟨h1, h2, h3⟩ := h
                refine ⟨5 + (n0 + 256 * n1 + 65536 * n2 + 16777216 * n3), by omega,
                  by simp at hlen ⊢; omega, ?_⟩
                rw [← h3]
                simp [List.drop_succ_cons,
                  Nat.add_comm 5 (n0 + 256 * n1 + 65536 * n2 + 16777216 * n3), ← List.drop_drop]
          case isFalse =>
            simp only [Option.some.injEq, Prod.mk.injEq] at h
            obtain ⟨h1, h2, h3⟩ := h
            exact ⟨1, by omega, by simp, by simp [← h3]⟩

theorem GetScriptOp_rest_length {l : List Nat} {op : Nat} {d r : List Nat}
    (h : GetScriptOp l = some (op, d, r)) : r.length < l.length := by
  obtain ⟨k, hk0, hkl, hr⟩ := GetScriptOp_drop h
  subst hr
  simp [List.length_drop]
  omega

theorem GetScriptOp_decomp {l : List Nat} {op : Nat} {d r : List Nat}
    (h : GetScriptOp l = some (op, d, r)) : ∃ c, l = c ++ r ∧ 0 < c.length := by
  obtain ⟨k, hk0, hkl, hr⟩ := GetScriptOp_drop h
  subst hr
  refine ⟨l.take k, by simp, ?_⟩
  simp [List.length_take]
  omega

theorem GetScriptOp_plain {l : List Nat} {op : Nat} {d r : List Nat}
    (h : GetScriptOp l = some (op, d, r)) (hop : 78 < op) : l = op :: r ∧ d = [] := by
  match l with
  | [] => simp [GetScriptOp] at h
  | b :: rest =>
    simp only [GetScriptOp] at h
    split at h
    case isTrue hb =>
      split at h
      case isTrue => exact absurd h (by simp)
      case isFalse =>
        simp only [Option.some.injEq, Prod.mk.injEq] at h
        omega
    case isFalse =>
      split at h
      case isTrue =>
        match rest with
        | [] => simp at h
        | n :: r2 =>
          simp only at h
          split at h
          case isTrue => exact absurd h (by simp)
          case isFalse =>
            simp only [Option.some.injEq, Prod.mk.injEq] at h
            omega
      case isFalse =>
        split at h
        case isTrue =>
          match rest with
          | [] => simp at h
          | [n0] => simp at h
          | n0 :: n1 :: r2 =>
            simp only at h
            split at h
            case isTrue => exact absurd h (by simp)
            case isFalse =>
              simp only [Option.some.injEq, Prod.mk.injEq] at h
              omega
        case isFalse =>
          split at h
          case isTrue =>
            match rest with
            | [] => simp at h
            | [n0] => simp at h
            | [n0, n1] => simp at h
            | [n0, n1, n2] => simp at h
            | n0 :: n1 :: n2 :: n3 :: r2 =>
              simp only at h
              split at h
              case isTrue => exact absurd h (by simp)
              case isFalse =>
                simp only [Option.some.injEq, Prod.mk.injEq] at h
                omega
          case isFalse =>
            simp only [Option.some.injEq, Prod.mk.injEq] at h
            obtain ⟨h1, h2, h3⟩ := h
            subst h1
            subst h2
            subst h3
            exact ⟨rfl, rfl⟩

/-- Test for small positive integer script opcodes, OP_1 through OP_16
(`IsSmallInteger` in the source). -/
def IsSmallInteger (opcode : Nat) : Bool :=
  decide (OP_1 ≤ opcode ∧ opcode ≤ OP_16)

/-- Modelled from the spec: the external `CScript::DecodeOP_N`, decoding a
small-integer opcode to its numeric value (OP_0 to 0, OP_1..OP_16 to
1..16). -/
def DecodeOP_N (opcode : Nat) : Nat :=
  if opcode = OP_0 then 0 else opcode - (OP_1 - 1)

/-- Modelled from the spec: the external public-key header decoder.  Per the
spec a public key is 33 bytes (compressed) or 65 bytes (uncompressed) and
validity requires exact size match plus format-tag byte correctness; headers
2 and 3 announce a 33-byte key, headers 4, 6 and 7 a 65-byte key, anything
else is invalid. -/
def CPubKey.GetLen (header : Nat) : Nat :=
  if header = 2 ∨ header = 3 then 33
  else if header = 4 ∨ header = 6 ∨ header = 7 then 65
  else 0

/-- Modelled from the spec: the external `CPubKey::ValidSize` predicate, the
public-key size/validity check consumed by the matchers: the byte blob is
nonempty and its announced length equals its actual length. -/
def CPubKey.ValidSize (d : List Nat) : Bool :=
  decide (0 < d.length ∧ CPubKey.GetLen (d.headD 0) = d.length)

/-- Modelled from the spec: constructing a `CPubKey` from a byte blob and
asking `IsValid` keeps exactly the blobs accepted by `CPubKey.ValidSize`
(exact size match plus format-tag byte correctness). -/
def CPubKey.IsValidFrom (d : List Nat) : Bool :=
  CPubKey.ValidSize d

/-- Modelled from the spec: the external 160-bit content-addressing digest
(`Hash160`) identifying a key or script by hash.  The cryptographic hash is
out of scope; the development uses only that it is a function of the input
bytes, never a property of its values. -/
def Hash160 (d : List Nat) : List Nat :=
  (d ++ List.replicate 20 0).take 20

/-- MatchPayToPubkey: script is exactly push(65) key CHECKSIG or
push(33) key CHECKSIG and the key passes `CPubKey.ValidSize`. -/
def MatchPayToPubkey (script : List Nat) : Option (List Nat) :=
  if script.length = 65 + 2 ∧ script[0]? = some 65 ∧ script.getLast? = some OP_CHECKSIG then
    (if CPubKey.ValidSize ((script.drop 1).take 65) then some ((script.drop 1).take 65) else none)
  else if script.length = 33 + 2 ∧ script[0]? = some 33 ∧ script.getLast? = some OP_CHECKSIG then
    (if CPubKey.ValidSize ((script.drop 1).take 33) then some ((script.drop 1).take 33) else none)
  else none

/-- MatchPayToPubkeyHash: script is exactly
DUP HASH160 push(20) hash EQUALVERIFY CHECKSIG (25 bytes). -/
def MatchPayToPubkeyHash (script : List Nat) : Option (List Nat) :=
  if script.length = 25 ∧ script[0]? = some OP_DUP ∧ script[1]? = some OP_HASH160 ∧
      script[2]? = some 20 ∧ script[23]? = some OP_EQUALVERIFY ∧ script[24]? = some OP_CHECKSIG then
    some ((script.drop 3).take 20)
  else none

/-- MatchColoredPayToPubkeyHash: script is exactly
push(33) colorid OP_COLOR DUP HASH160 push(20) hash EQUALVERIFY CHECKSIG
(60 bytes), with the color kind byte restricted to 1, 2 or 3.  Returns the
pubkey hash (bytes 38..57) and the color identifier (bytes 1..33). -/
def MatchColoredPayToPubkeyHash (script : List Nat) : Option (List Nat × List Nat) :=
  if script.length = 60 ∧ script[0]? = some 0x21 ∧
      (script[1]? = some 0x01 ∨ script[1]? = some 0x02 ∨ script[1]? = some 0x03) ∧
      script[34]? = some OP_COLOR ∧ script[35]? = some OP_DUP ∧ script[36]? = some OP_HASH160 ∧
      script[37]? = some 20 ∧ script[58]? = some OP_EQUALVERIFY ∧ script[59]? = some OP_CHECKSIG then
    some ((script.drop 38).take 20, (script.drop 1).take 33)
  else none

/-- Token scan of MatchCustomColoredScript: walk the token stream from the
start of the script; on a COLOR opcode stop and return the remaining bytes
after that opcode, on a tokenization failure or when the stream ends without
a COLOR opcode return nothing (both make the matcher report no match).  The
fuel argument is structural and is always supplied as the script length. -/
def findOpColorRestF : Nat → List Nat → Option (List Nat)
  | _, [] => none
  | 0, _ :: _ => none
  | fuel + 1, b :: rest =>
    match GetScriptOp (b :: rest) with
    | none => none
    | some (op, _, r) => if op = OP_COLOR then some r else findOpColorRestF fuel r

/-- MatchCustomColoredScript: looks for the first 0x21 byte and for a COLOR
opcode in the token stream; the match succeeds when the COLOR opcode exists,
is not the last byte of the script, the 0x21 byte exists and the distance
from the 0x21 byte to the position just after the COLOR opcode is exactly
34.  The source assigns the 33 bytes after the 0x21 byte to a local variable
named colorId and never writes the out-parameter colorid, so the
out-parameter (second argument and second component of the result) is
returned unchanged on every path. -/
def MatchCustomColoredScript (script : List Nat) (colorid : List Nat) : Bool × List Nat :=
  match findOpColorRestF script.length script with
  | none => (false, colorid)
  | some r =>
    if r = [] then (false, colorid)
    else
      if script.findIdx (fun b => b == 0x21) < script.length ∧
          (script.length - r.length) - script.findIdx (fun b => b == 0x21) = 34 then
        (true, colorid)
      else (false, colorid)

/-- Greedy key-collection loop of MatchMultisig: keep reading tokens while
the pushed data passes `CPubKey.ValidSize`; at the first token whose data
does not, require a small-integer opcode and return its decoded value, the
collected keys and the remaining bytes.  A tokenization failure leaves the
loop opcode at OP_INVALIDOPCODE, which is not a small integer, so it yields
no result.  The fuel argument is structural and is always supplied as one
more than the list length. -/
def msLoopF : Nat → List Nat → List (List Nat) → Option (Nat × List (List Nat) × List Nat)
  | 0, _, _ => none
  | fuel + 1, l, acc =>
    match GetScriptOp l with
    | none => none
    | some (op, d, r) =>
      if CPubKey.ValidSize d then msLoopF fuel r (acc ++ [d])
      else if IsSmallInteger op then some (DecodeOP_N op, acc, r)
      else none

/-- MatchMultisig: the script ends with CHECKMULTISIG, starts with a
small-integer opcode giving the required count, greedily collects valid-size
pubkey pushes, the first non-key token is a small-integer opcode giving the
key count, the collected keys number exactly that count, the count is at
least the required count, and exactly one byte (the trailing CHECKMULTISIG)
follows the key-count token. -/
def MatchMultisig (script : List Nat) : Option (Nat × List (List Nat)) :=
  if script.getLast? ≠ some OP_CHECKMULTISIG then none
  else
    match GetScriptOp script with
    | none => none
    | some (op, _, rest) =>
      if ¬ IsSmallInteger op then none
      else
        match msLoopF (rest.length + 1) rest [] with
        | none => none
        | some (keys, pubkeys, rest2) =>
          if pubkeys.length ≠ keys ∨ keys < DecodeOP_N op then none
          else if rest2.length = 1 then some (DecodeOP_N op, pubkeys) else none

/-- Fixed disabled-opcode set of CheckScriptSyntax: bitwise and string
manipulation opcodes, arithmetic extensions, reserved and version-gate
opcodes, and the NOP placeholders NOP1 and NOP4..NOP10. -/
def disabledOpcode (op : Nat) : Bool :=
  decide (op = OP_CAT ∨ op = OP_SUBSTR ∨ op = OP_LEFT ∨ op = OP_RIGHT ∨
    op = OP_INVERT ∨ op = OP_AND ∨ op = OP_OR ∨ op = OP_XOR ∨
    op = OP_2MUL ∨ op = OP_2DIV ∨ op = OP_MUL ∨ op = OP_DIV ∨ op = OP_MOD ∨
    op = OP_LSHIFT ∨ op = OP_RSHIFT ∨ op = OP_VER ∨ op = OP_VERIF ∨
    op = OP_VERNOTIF ∨ op = OP_RESERVED ∨ op = OP_RESERVED1 ∨ op = OP_RESERVED2 ∨
    op = OP_NOP1 ∨ op = OP_NOP4 ∨ op = OP_NOP5 ∨ op = OP_NOP6 ∨ op = OP_NOP7 ∨
    op = OP_NOP8 ∨ op = OP_NOP9 ∨ op = OP_NOP10)

/-- Main loop of CheckScriptSyntax: tokenize the whole script, rejecting on
tokenization failure, on a push payload larger than
MAX_SCRIPT_ELEMENT_SIZE, when the running count of opcodes above OP_16
exceeds MAX_OPS_PER_SCRIPT, and on any disabled opcode.  The fuel argument
is structural and is always supplied as the script length. -/
def checkSyntaxF : Nat → List Nat → Nat → Bool
  | _, [], _ => true
  | 0, _ :: _, _ => true
  | fuel + 1, b :: rest, nOpCount =>
    match GetScriptOp (b :: rest) with
    | none => false
    | some (op, d, r) =>
      if MAX_SCRIPT_ELEMENT_SIZE < d.length then false
      else if OP_16 < op ∧ MAX_OPS_PER_SCRIPT < nOpCount + 1 then false
      else if disabledOpcode op then false
      else checkSyntaxF fuel r (if OP_16 < op then nOpCount + 1 else nOpCount)

/-- CheckScriptSyntax of the source: scan the whole opcode stream with a
zero initial opcode count. -/
def CheckScriptSyntax (script : List Nat) : Bool :=
  checkSyntaxF script.length script 0

/-- Full tokenization of a script into (opcode, data) pairs; fails when any
token is malformed.  This is the claim-side notion used to characterize
CheckScriptSyntax; it is driven by the same external tokenizer.  The fuel
argument is structural and is always supplied as the script length. -/
def tokenizeF : Nat → List Nat → Option (List (Nat × List Nat))
  | _, [] => some []
  | 0, _ :: _ => none
  | fuel + 1, b :: rest =>
    match GetScriptOp (b :: rest) with
    | none => none
    | some (op, d, r) =>
      match tokenizeF fuel r with
      | none => none
      | some ts => some ((op, d) :: ts)

/-- Tokenize a whole script. -/
def tokenize (script : List Nat) : Option (List (Nat × List Nat)) :=
  tokenizeF script.length script

/-- Number of tokens whose opcode is above OP_16 (push opcodes and
small-integer opcodes are exempt from the ops-per-script count). -/
def scriptOpsCount (ts : List (Nat × List Nat)) : Nat :=
  ts.countP (fun t => decide (OP_16 < t.1))

/-- Modelled from the spec: the external `CScript::IsPushOnly` shape test,
walking the token stream and requiring every opcode to be at most OP_16; a
tokenization failure fails the test.  The fuel argument is structural and is
always supplied as the list length. -/
def isPushOnlyF : Nat → List Nat → Bool
  | _, [] => true
  | 0, _ :: _ => false
  | fuel + 1, b :: rest =>
    match GetScriptOp (b :: rest) with
    | none => false
    | some (op, _, r) => if OP_16 < op then false else isPushOnlyF fuel r

/-- IsPushOnly over a whole byte list. -/
def IsPushOnly (l : List Nat) : Bool :=
  isPushOnlyF l.length l

/-- Modelled from the spec: the external `CScript::IsPayToScriptHash` shape
predicate recognizing HASH160 push(20) hash EQUAL (23 bytes). -/
def IsPayToScriptHash (script : List Nat) : Bool :=
  decide (script.length = 23 ∧ script[0]? = some OP_HASH160 ∧
    script[1]? = some 20 ∧ script[22]? = some OP_EQUAL)

/-- Modelled from the spec: the external `CScript::IsColoredPayToScriptHash`
shape predicate, analogous to pay-to-script-hash but with a leading 33-byte
color identifier push (kind byte 1, 2 or 3) gated by the COLOR opcode:
push(33) colorid OP_COLOR HASH160 push(20) hash EQUAL (58 bytes), the hash
at bytes 37..56 and the color identifier at bytes 1..33. -/
def IsColoredPayToScriptHash (script : List Nat) : Bool :=
  decide (script.length = 58 ∧ script[0]? = some 0x21 ∧
    (script[1]? = some 0x01 ∨ script[1]? = some 0x02 ∨ script[1]? = some 0x03) ∧
    script[34]? = some OP_COLOR ∧ script[35]? = some OP_HASH160 ∧
    script[36]? = some 20 ∧ script[57]? = some OP_EQUAL)

/-- Modelled from the spec: the external `CScript::IsWitnessProgram` shape
predicate recognizing a version opcode (OP_0 or OP_1..OP_16) followed by a
single push of 2..40 bytes. -/
def IsWitnessProgram (script : List Nat) : Bool :=
  decide (4 ≤ script.length ∧ script.length ≤ 42 ∧
    (script[0]? = some OP_0 ∨ ∃ v, script[0]? = some v ∧ OP_1 ≤ v ∧ v ≤ OP_16) ∧
    script[1]? = some (script.length - 2))

/-- Classification tags returned by the Solver (txnouttype of the source,
without the build-gated witness variants, which are disabled in this
configuration). -/
inductive txnouttype where
  | TX_NONSTANDARD
  | TX_PUBKEY
  | TX_PUBKEYHASH
  | TX_SCRIPTHASH
  | TX_MULTISIG
  | TX_NULL_DATA
  | TX_CUSTOM
  | TX_COLOR_PUBKEYHASH
  | TX_COLOR_SCRIPTHASH
deriving DecidableEq, Repr

/-- Solver: priority-ordered dispatch over the matchers.  Returns the C++
boolean result together with the final values of the two out-parameters
(classification tag and solutions list). -/
def Solver (scriptPubKey : List Nat) : Bool × txnouttype × List (List Nat) :=
  if IsPayToScriptHash scriptPubKey then
    (true, txnouttype.TX_SCRIPTHASH, [(scriptPubKey.drop 2).take 20])
  else if IsColoredPayToScriptHash scriptPubKey then
    (true, txnouttype.TX_COLOR_SCRIPTHASH,
      [(scriptPubKey.drop 37).take 20, (scriptPubKey.drop 1).take 33])
  else if IsWitnessProgram scriptPubKey then
    (true, txnouttype.TX_NONSTANDARD, [])
  else if 1 ≤ scriptPubKey.length ∧ scriptPubKey[0]? = some OP_RETURN ∧
      IsPushOnly (scriptPubKey.drop 1) = true then
    (true, txnouttype.TX_NULL_DATA, [])
  else
    match MatchPayToPubkey scriptPubKey with
    | some data => (true, txnouttype.TX_PUBKEY, [data])
    | none =>
      match MatchPayToPubkeyHash scriptPubKey with
      | some data => (true, txnouttype.TX_PUBKEYHASH, [data])
      | none =>
        match MatchColoredPayToPubkeyHash scriptPubKey with
        | some dc => (true, txnouttype.TX_COLOR_PUBKEYHASH, [dc.1, dc.2])
        | none =>
          match MatchMultisig scriptPubKey with
          | some rk => (true, txnouttype.TX_MULTISIG, [[rk.1]] ++ rk.2 ++ [[rk.2.length]])
          | none =>
            if CheckScriptSyntax scriptPubKey then (true, txnouttype.TX_CUSTOM, [])
            else (false, txnouttype.TX_NONSTANDARD, [])

/-- Destination value type (CTxDestination of the source, without the
build-gated witness variants, which are disabled in this configuration). -/
inductive CTxDestination where
  | CNoDestination
  | CKeyID (hash : List Nat)
  | CScriptID (hash : List Nat)
deriving DecidableEq, Repr

/-- ExtractDestination: run the Solver and map the classification to a
single destination; a bare public key yields the key id (hash of the key)
after a validity re-check, the hash templates yield the embedded 20-byte
hash, every other tag yields no destination. -/
def ExtractDestination (scriptPubKey : List Nat) : Option CTxDestination :=
  match Solver scriptPubKey with
  | (false, _, _) => none
  | (true, whichType, vSolutions) =>
    if whichType = txnouttype.TX_PUBKEY then
      (if CPubKey.IsValidFrom (vSolutions.getD 0 []) then
        some (CTxDestination.CKeyID (Hash160 (vSolutions.getD 0 [])))
      else none)
    else if whichType = txnouttype.TX_PUBKEYHASH ∨ whichType = txnouttype.TX_COLOR_PUBKEYHASH then
      some (CTxDestination.CKeyID (vSolutions.getD 0 []))
    else if whichType = txnouttype.TX_SCRIPTHASH ∨ whichType = txnouttype.TX_COLOR_SCRIPTHASH then
      some (CTxDestination.CScriptID (vSolutions.getD 0 []))
    else none

/-- Multisig address collection of ExtractDestinations: the middle solution
entries (between the leading required byte and the trailing count byte) that
pass the public-key validity check, each mapped to its key id; invalid
entries are skipped. -/
def collectValidKeyIDs (middle : List (List Nat)) : List CTxDestination :=
  middle.filterMap (fun k =>
    if CPubKey.IsValidFrom k then some (CTxDestination.CKeyID (Hash160 k)) else none)

/-- ExtractDestinations: run the Solver; fail on NullData; on Multisig read
the required count from the leading solution byte and collect the valid
keys, failing only when none are valid; otherwise delegate to
ExtractDestination with required = 1.  The function returns the C++ boolean
result together with the final values of the out-parameters: the tag, the
address list (cleared at entry) and the required count, whose caller-side
initial value is the nRequired0 argument (it is left untouched on paths
that never assign it). -/
def ExtractDestinations (scriptPubKey : List Nat) (nRequired0 : Nat) :
    Bool × txnouttype × List CTxDestination × Nat :=
  match Solver scriptPubKey with
  | (false, typeRet, _) => (false, typeRet, [], nRequired0)
  | (true, typeRet, vSolutions) =>
    if typeRet = txnouttype.TX_NULL_DATA then (false, typeRet, [], nRequired0)
    else if typeRet = txnouttype.TX_MULTISIG then
      (let nRequiredRet := (vSolutions.getD 0 []).getD 0 0
       let addressRet := collectValidKeyIDs ((vSolutions.drop 1).take (vSolutions.length - 2))
       if addressRet = [] then (false, typeRet, [], nRequiredRet)
       else (true, typeRet, addressRet, nRequiredRet))
    else
      match ExtractDestination scriptPubKey with
      | none => (false, typeRet, [], 1)
      | some address => (true, typeRet, [address], 1)

/-- Modelled from the spec: serialization of a data push by the external
CScript stream operator; a short blob is pushed with a single length byte,
longer blobs through OP_PUSHDATA1/2/4 with a little-endian length. -/
def pushDataBytes (d : List Nat) : List Nat :=
  if d.length < OP_PUSHDATA1 then d.length :: d
  else if d.length ≤ 0xff then OP_PUSHDATA1 :: d.length :: d
  else if d.length ≤ 0xffff then OP_PUSHDATA2 :: (d.length % 256) :: (d.length / 256) :: d
  else OP_PUSHDATA4 :: (d.length % 256) :: (d.length / 256 % 256) ::
    (d.length / 65536 % 256) :: (d.length / 16777216 % 256) :: d

/-- GetScriptForDestination (the CScriptVisitor dispatch): no destination
gives an empty script, a key id gives the canonical pay-to-pubkey-hash
script, a script id the canonical pay-to-script-hash script. -/
def GetScriptForDestination : CTxDestination → List Nat
  | CTxDestination.CNoDestination => []
  | CTxDestination.CKeyID hash =>
    [OP_DUP, OP_HASH160] ++ pushDataBytes hash ++ [OP_EQUALVERIFY, OP_CHECKSIG]
  | CTxDestination.CScriptID hash =>
    [OP_HASH160] ++ pushDataBytes hash ++ [OP_EQUAL]

/-! Concrete demonstration scripts used by witnesses and counterexamples. -/

/-- Demonstration 20-byte hash. -/
def demoHash20 : List Nat := List.replicate 20 7

/-- Demonstration compressed public key (header byte 2, 33 bytes). -/
def demoKeyA : List Nat := 2 :: List.replicate 32 9

/-- Second demonstration compressed public key (header byte 3, 33 bytes). -/
def demoKeyB : List Nat := 3 :: List.replicate 32 4

/-- Demonstration pay-to-pubkey script: push(33) key CHECKSIG. -/
def demoP2PK : List Nat := (33 :: demoKeyA) ++ [OP_CHECKSIG]

/-- Demonstration null-data script: RETURN followed by one 4-byte push. -/
def demoNullData : List Nat := [OP_RETURN, 4, 100, 101, 97, 100]

/-- Demonstration 1-of-2 multisig script:
OP_1 push(33) keyA push(33) keyB OP_2 CHECKMULTISIG. -/
def demoMultisig : List Nat :=
  [OP_1, 33] ++ demoKeyA ++ [33] ++ demoKeyB ++ [OP_1 + 1, OP_CHECKMULTISIG]

/-- Demonstration witness program: OP_0 push(2) two bytes. -/
def demoWitness : List Nat := [OP_0, 2, 170, 187]

/-- Demonstration colored pay-to-script-hash script (58 bytes). -/
def demoColoredP2SH : List Nat :=
  (0x21 :: 1 :: List.replicate 32 5) ++ ([OP_COLOR, OP_HASH160, 20] ++ demoHash20 ++ [OP_EQUAL])

/-- Demonstration colored pay-to-pubkey-hash script (60 bytes). -/
def demoColoredP2PKH : List Nat :=
  (0x21 :: 1 :: List.replicate 32 5) ++
    ([OP_COLOR, OP_DUP, OP_HASH160, 20] ++ demoHash20 ++ [OP_EQUALVERIFY, OP_CHECKSIG])

/-- The documented custom-colored pattern: a 33-byte color identifier push
(0x21, kind byte 1, 32 payload bytes) immediately followed by the COLOR
opcode, with one further opcode after it. -/
def demoCanonicalColored : List Nat := (0x21 :: 1 :: List.replicate 32 0) ++ [OP_COLOR, OP_1]

/-- A script MatchCustomColoredScript accepts although its first 0x21 byte
is push data, not the start of a 33-byte color push: push(1) of byte 0x21,
then push(31), then COLOR, then one trailing byte. -/
def demoLooseColored : List Nat := [1, 0x21, 31] ++ List.replicate 31 0 ++ [OP_COLOR, 0]

/-- C9: a script recognized by the external IsWitnessProgram predicate and
matched by neither pay-to-script-hash shortcut is classified by the Solver
as a success with tag NonStandard and an empty solution list: witness
recognition is not a hard failure and the program is not decoded. -/
theorem solver_witnessProgram_nonstandard (s : List Nat)
    (hw : IsWitnessProgram s = true)
    (h1 : IsPayToScriptHash s = false) (h2 : IsColoredPayToScriptHash s = false) :
    Solver s = (true, txnouttype.TX_NONSTANDARD, []) := by
  simp [Solver, h1, h2, hw]

/-- Witness for C9 at a concrete witness-program script. -/
theorem solver_witnessProgram_nonstandard_witness :
    Solver demoWitness = (true, txnouttype.TX_NONSTANDARD, []) :=
  solver_witnessProgram_nonstandard demoWitness (by decide) (by decide) (by decide)

/-- C3: on a script matching none of the eight templates the Solver runs
CheckScriptSyntax; an invalid syntax gives a hard failure with tag
NonStandard and empty solutions, a valid syntax gives success with tag
Custom and empty solutions. -/
theorem solver_fallback_syntax (s : List Nat)
    (h1 : IsPayToScriptHash s = false) (h2 : IsColoredPayToScriptHash s = false)
    (h3 : IsWitnessProgram s = false)
    (h4 : ¬(1 ≤ s.length ∧ s[0]? = some OP_RETURN ∧ IsPushOnly (s.drop 1) = true))
    (h5 : MatchPayToPubkey s = none) (h6 : MatchPayToPubkeyHash s = none)
    (h7 : MatchColoredPayToPubkeyHash s = none) (h8 : MatchMultisig s = none) :
    Solver s = (CheckScriptSyntax s,
      (if CheckScriptSyntax s then txnouttype.TX_CUSTOM else txnouttype.TX_NONSTANDARD), []) := by
  simp only [Solver, h1, h2, h3, h5, h6, h7, h8, Bool.false_eq_true, if_false, if_neg h4]
  by_cases hc : CheckScriptSyntax s <;> simp [hc]

/-- Witness for C3 at a concrete template-free script (a single DUP opcode,
which passes the syntax check and is classified Custom). -/
theorem solver_fallback_syntax_witness :
    Solver [OP_DUP] = (CheckScriptSyntax [OP_DUP],
      (if CheckScriptSyntax [OP_DUP] then txnouttype.TX_CUSTOM else txnouttype.TX_NONSTANDARD),
      []) :=
  solver_fallback_syntax [OP_DUP] (by decide) (by decide) (by decide) (by decide)
    (by decide) (by decide) (by decide) (by decide)

/-- C10: every failure of ExtractDestinations leaves the address list
empty; no failure path returns a partially filled list. -/
theorem extractDestinations_failure_empty (s : List Nat) (n0 : Nat) (t : txnouttype)
    (addrs : List CTxDestination) (n : Nat)
    (h : ExtractDestinations s n0 = (false, t, addrs, n)) : addrs = [] := by
  unfold ExtractDestinations at h
  rcases hS : Solver s with ⟨b, t2, sols⟩
  rw [hS] at h
  match b with
  | false =>
    simp only [Prod.mk.injEq] at h
    exact h.2.2.1.symm
  | true =>
    simp only at h
    split at h
    · simp only [Prod.mk.injEq] at h
      exact h.2.2.1.symm
    · split at h
      · split at h
        · simp only [Prod.mk.injEq] at h
          exact h.2.2.1.symm
        · simp only [Prod.mk.injEq] at h
          exact absurd h.1 (by simp)
      · split at h
        · simp only [Prod.mk.injEq] at h
          exact h.2.2.1.symm
        · simp only [Prod.mk.injEq] at h
          exact absurd h.1 (by simp)

/-- Witness for C10 at a concrete failing input (a null-data script). -/
theorem extractDestinations_failure_empty_witness : ([] : List CTxDestination) = [] :=
  extractDestinations_failure_empty demoNullData 5 txnouttype.TX_NULL_DATA [] 5 (by decide)

/-- C4: ExtractDestination dispatches on the Solver tag: a Solver failure
yields no destination; tag PubKey yields the key-derived id exactly when the
solution bytes are a valid public key; PubKeyHash and ColorPubKeyHash yield
a key id from the solution; ScriptHash and ColorScriptHash yield a script
id from the solution; every other tag yields no destination. -/
theorem extractDestination_by_tag (s : List Nat) :
    ((Solver s).1 = false → ExtractDestination s = none) ∧
    (∀ sols, Solver s = (true, txnouttype.TX_PUBKEY, sols) →
      ExtractDestination s = (if CPubKey.IsValidFrom (sols.getD 0 []) then
        some (CTxDestination.CKeyID (Hash160 (sols.getD 0 []))) else none)) ∧
    (∀ t sols, Solver s = (true, t, sols) →
      (t = txnouttype.TX_PUBKEYHASH ∨ t = txnouttype.TX_COLOR_PUBKEYHASH) →
      ExtractDestination s = some (CTxDestination.CKeyID (sols.getD 0 []))) ∧
    (∀ t sols, Solver s = (true, t, sols) →
      (t = txnouttype.TX_SCRIPTHASH ∨ t = txnouttype.TX_COLOR_SCRIPTHASH) →
      ExtractDestination s = some (CTxDestination.CScriptID (sols.getD 0 []))) ∧
    (∀ t sols, Solver s = (true, t, sols) →
      t ≠ txnouttype.TX_PUBKEY → t ≠ txnouttype.TX_PUBKEYHASH →
      t ≠ txnouttype.TX_COLOR_PUBKEYHASH → t ≠ txnouttype.TX_SCRIPTHASH →
      t ≠ txnouttype.TX_COLOR_SCRIPTHASH →
      ExtractDestination s = none) := by
  refine ⟨?_, ?_, ?_, ?_, ?_⟩
  · intro hb
    unfold ExtractDestination
    rcases hS : Solver s with ⟨b, t2, sols⟩
    rw [hS] at hb
    simp only at hb
    subst hb
    simp only
  · intro sols h
    unfold ExtractDestination
    rw [h]
    simp [CPubKey.IsValidFrom]
  · intro t sols h ht
    unfold ExtractDestination
    rw [h]
    rcases ht with ht | ht <;> subst ht <;> simp
  · intro t sols h ht
    unfold ExtractDestination
    rw [h]
    rcases ht with ht | ht <;> subst ht <;> simp
  · intro t sols h h1 h2 h3 h4 h5
    unfold ExtractDestination
    rw [h]
    simp [h1, h2, h3, h4, h5]

/-- Witness for C4 at concrete scripts: a bare-pubkey script yields the
key-derived id, a null-data script yields no destination. -/
theorem extractDestination_by_tag_witness :
    ExtractDestination demoP2PK = some (CTxDestination.CKeyID (Hash160 demoKeyA)) ∧
    ExtractDestination demoNullData = none := by
  constructor
  · rw [(extractDestination_by_tag demoP2PK).2.1 [demoKeyA] (by decide)]
    decide
  · exact (extractDestination_by_tag demoNullData).2.2.2.2 txnouttype.TX_NULL_DATA []
      (by decide) (by decide) (by decide) (by decide) (by decide) (by decide)

/-! Helper facts used to drive the Solver past non-matching templates. -/

theorem IsPayToScriptHash_false_len {s : List Nat} (h : s.length ≠ 23) :
    IsPayToScriptHash s = false := by
  simp only [IsPayToScriptHash, decide_eq_false_iff_not]
  rintro ⟨hL, -⟩
  exact h hL

theorem IsColoredPayToScriptHash_false_len {s : List Nat} (h : s.length ≠ 58) :
    IsColoredPayToScriptHash s = false := by
  simp only [IsColoredPayToScriptHash, decide_eq_false_iff_not]
  rintro ⟨hL, -⟩
  exact h hL

theorem IsWitnessProgram_false_head {s : List Nat} {v : Nat} (h0 : s[0]? = some v)
    (hv0 : v ≠ 0) (hv : 96 < v ∨ v < 81) : IsWitnessProgram s = false := by
  simp only [IsWitnessProgram, decide_eq_false_iff_not]
  rintro ⟨-, -, hc | ⟨w, hw, hw1, hw2⟩, -⟩
  · rw [h0] at hc
    exact hv0 (Option.some.inj hc)
  · rw [h0] at hw
    have hvw := Option.some.inj hw
    have e1 : OP_1 = 81 := rfl
    have e2 : OP_16 = 96 := rfl
    omega

theorem MatchPayToPubkey_none_len {s : List Nat} (h67 : s.length ≠ 67) (h35 : s.length ≠ 35) :
    MatchPayToPubkey s = none := by
  unfold MatchPayToPubkey
  rw [if_neg (fun hc => h67 hc.1), if_neg (fun hc => h35 hc.1)]

theorem MatchPayToPubkeyHash_none_len {s : List Nat} (h : s.length ≠ 25) :
    MatchPayToPubkeyHash s = none := by
  unfold MatchPayToPubkeyHash
  rw [if_neg (fun hc => h hc.1)]

theorem MatchColoredPayToPubkeyHash_none_len {s : List Nat} (h : s.length ≠ 60) :
    MatchColoredPayToPubkeyHash s = none := by
  unfold MatchColoredPayToPubkeyHash
  rw [if_neg (fun hc => h hc.1)]

theorem MatchMultisig_none_last {s : List Nat} (h : s.getLast? ≠ some OP_CHECKMULTISIG) :
    MatchMultisig s = none := by
  unfold MatchMultisig
  rw [if_pos h]

/-- C1: building a script from a KeyHash destination with
GetScriptForDestination and extracting with ExtractDestination returns the
same KeyHash destination, and likewise for a ScriptHash destination, for
every 20-byte hash. -/
theorem roundtrip_build_extract (h : List Nat) (hl : h.length = 20) :
    ExtractDestination (GetScriptForDestination (CTxDestination.CKeyID h)) =
      some (CTxDestination.CKeyID h) ∧
    ExtractDestination (GetScriptForDestination (CTxDestination.CScriptID h)) =
      some (CTxDestination.CScriptID h) := by
  have e1 : GetScriptForDestination (CTxDestination.CKeyID h) =
      118 :: 169 :: 20 :: (h ++ [136, 172]) := by
    simp [GetScriptForDestination, pushDataBytes, hl, OP_PUSHDATA1, OP_DUP, OP_HASH160,
      OP_EQUALVERIFY, OP_CHECKSIG]
  have e2 : GetScriptForDestination (CTxDestination.CScriptID h) =
      169 :: 20 :: (h ++ [135]) := by
    simp [GetScriptForDestination, pushDataBytes, hl, OP_PUSHDATA1, OP_HASH160, OP_EQUAL]
  constructor
  · rw [e1]
    have hlen : (118 :: 169 :: 20 :: (h ++ [136, 172])).length = 25 := by
      simp [hl]
    have hP := IsPayToScriptHash_false_len (s := 118 :: 169 :: 20 :: (h ++ [136, 172]))
      (by omega)
    have hC := IsColoredPayToScriptHash_false_len (s := 118 :: 169 :: 20 :: (h ++ [136, 172]))
      (by omega)
    have hW := IsWitnessProgram_false_head (s := 118 :: 169 :: 20 :: (h ++ [136, 172]))
      (v := 118) rfl (by omega) (by omega)
    have hND : ¬(1 ≤ (118 :: 169 :: 20 :: (h ++ [136, 172])).length ∧
        (118 :: 169 :: 20 :: (h ++ [136, 172]))[0]? = some OP_RETURN ∧
        IsPushOnly ((118 :: 169 :: 20 :: (h ++ [136, 172])).drop 1) = true) := by
      rintro ⟨-, hc, -⟩
      simp at hc
    have hM5 := MatchPayToPubkey_none_len (s := 118 :: 169 :: 20 :: (h ++ [136, 172]))
      (by omega) (by omega)
    have hMh : MatchPayToPubkeyHash (118 :: 169 :: 20 :: (h ++ [136, 172])) = some h := by
      unfold MatchPayToPubkeyHash
      rw [if_pos]
      · have hdrop : (118 :: 169 :: 20 :: (h ++ [136, 172])).drop 3 = h ++ [136, 172] := rfl
        rw [hdrop, List.take_left' hl]
      · refine ⟨hlen, by simp, by simp, by simp, ?_, ?_⟩
        · show (118 :: 169 :: 20 :: (h ++ [136, 172]))[23]? = some 136
          simp only [List.getElem?_cons_succ]
          rw [List.getElem?_append_right (by omega)]
          simp [hl]
        · show (118 :: 169 :: 20 :: (h ++ [136, 172]))[24]? = some 172
          simp only [List.getElem?_cons_succ]
          rw [List.getElem?_append_right (by omega)]
          simp [hl]
    have hSolver : Solver (118 :: 169 :: 20 :: (h ++ [136, 172])) =
        (true, txnouttype.TX_PUBKEYHASH, [h]) := by
      simp only [Solver, hP, hC, hW, Bool.false_eq_true, if_false, if_neg hND, hM5, hMh]
    unfold ExtractDestination
    rw [hSolver]
    simp
  · rw [e2]
    have hlen : (169 :: 20 :: (h ++ [135])).length = 23 := by
      simp [hl]
    have hP : IsPayToScriptHash (169 :: 20 :: (h ++ [135])) = true := by
      simp only [IsPayToScriptHash, decide_eq_true_eq]
      refine ⟨hlen, by simp, by simp, ?_⟩
      show (169 :: 20 :: (h ++ [135]))[22]? = some 135
      simp only [List.getElem?_cons_succ]
      rw [List.getElem?_append_right (by omega)]
      simp [hl]
    have hSolver : Solver (169 :: 20 :: (h ++ [135])) =
        (true, txnouttype.TX_SCRIPTHASH, [h]) := by
      simp only [Solver, hP, if_true]
      have hdrop : (169 :: 20 :: (h ++ [135])).drop 2 = h ++ [135] := rfl
      rw [hdrop, List.take_left' hl]
    unfold ExtractDestination
    rw [hSolver]
    simp
  
/-- Witness for C1 at a concrete 20-byte hash. -/
theorem roundtrip_build_extract_witness :
    ExtractDestination (GetScriptForDestination (CTxDestination.CKeyID demoHash20)) =
      some (CTxDestination.CKeyID demoHash20) ∧
    ExtractDestination (GetScriptForDestination (CTxDestination.CScriptID demoHash20)) =
      some (CTxDestination.CScriptID demoHash20) :=
  roundtrip_build_extract demoHash20 (by decide)

/-- Soundness of the greedy key-collection loop: a successful run yields a
key count decoded from a small-integer opcode (so between 1 and 16), keys
extending the accumulator, and an input decomposing into the consumed
tokens, the single-byte key-count opcode and the remaining bytes. -/
theorem msLoopF_sound (fuel : Nat) :
    ∀ (l : List Nat) (acc : List (List Nat)) (n : Nat) (pks : List (List Nat)) (r : List Nat),
    msLoopF fuel l acc = some (n, pks, r) →
    1 ≤ n ∧ n ≤ 16 ∧ (∃ suf, pks = acc ++ suf) ∧ ∃ c, l = c ++ (80 + n) :: r := by
  induction fuel with
  | zero =>
    intro l acc n pks r h
    simp [msLoopF] at h
  | succ f ih =>
    intro l acc n pks r h
    simp only [msLoopF] at h
    rcases hG : GetScriptOp l with - | ⟨op, d, rest⟩
    · rw [hG] at h
      simp at h
    · rw [hG] at h
      simp only at h
      split at h
      case isTrue hV =>
        obtain ⟨h1, h2, ⟨suf, hsuf⟩, ⟨c, hc⟩⟩ := ih rest (acc ++ [d]) n pks r h
        refine ⟨h1, h2, ⟨[d] ++ suf, by simp [hsuf]⟩, ?_⟩
        obtain ⟨c0, hc0, -⟩ := GetScriptOp_decomp hG
        refine ⟨c0 ++ c, ?_⟩
        rw [hc0, hc, List.append_assoc]
      case isFalse hV =>
        split at h
        case isTrue hS =>
          simp only [Option.some.injEq, Prod.mk.injEq] at h
          obtain ⟨hn, hpks, hr⟩ := h
          have hop : 81 ≤ op ∧ op ≤ 96 := by
            have e := of_decide_eq_true hS
            exact e
          have hplain := GetScriptOp_plain hG (by omega)
          have hdec : DecodeOP_N op = op - 80 := by
            have e0 : ¬ op = OP_0 := by
              have e : OP_0 = 0 := rfl
              omega
            unfold DecodeOP_N
            rw [if_neg e0]
            rfl
          rw [hdec] at hn
          refine ⟨by omega, by omega, ⟨[], by simp [hpks]⟩, ⟨[], ?_⟩⟩
          rw [hplain.1, ← hr]
          simp
          omega
        case isFalse => exact absurd h (by simp)

/-- C2: every successful MatchMultisig yields a required count and key list
with 1 ≤ required ≤ keys ≤ 16, the key count equal to the number of
collected keys, and a script whose final two bytes are exactly the
small-integer opcode encoding the key count followed by CHECKMULTISIG (so
the very last opcode is CHECKMULTISIG and the key-count token is followed
only by it); and a Multisig classification by the Solver only arises from a
successful MatchMultisig, so any script violating these conditions is
classified neither by MatchMultisig nor as Multisig by the Solver. -/
theorem matchMultisig_bounds_shape (s : List Nat) :
    (∀ req pks, MatchMultisig s = some (req, pks) →
      1 ≤ req ∧ req ≤ pks.length ∧ pks.length ≤ 16 ∧
      ∃ p, s = p ++ [80 + pks.length, OP_CHECKMULTISIG]) ∧
    ((Solver s).2.1 = txnouttype.TX_MULTISIG → (MatchMultisig s).isSome = true) := by
  constructor
  · intro req pks h
    unfold MatchMultisig at h
    split at h
    case isTrue => exact absurd h (by simp)
    case isFalse hL =>
      have hlast : s.getLast? = some OP_CHECKMULTISIG := not_not.mp hL
      rcases hG : GetScriptOp s with - | ⟨op, d0, rest⟩
      · rw [hG] at h
        simp at h
      · rw [hG] at h
        simp only at h
        split at h
        case isTrue => exact absurd h (by simp)
        case isFalse hS =>
          have hSm : IsSmallInteger op = true := not_not.mp hS
          have hop : 81 ≤ op ∧ op ≤ 96 := of_decide_eq_true hSm
          rcases hM : msLoopF (rest.length + 1) rest [] with - | ⟨n, pks2, rest2⟩
          · rw [hM] at h
            simp at h
          · rw [hM] at h
            simp only at h
            split at h
            case isTrue => exact absurd h (by simp)
            case isFalse hOK =>
              split at h
              case isFalse => exact absurd h (by simp)
              case isTrue hr1 =>
                simp only [Option.some.injEq, Prod.mk.injEq] at h
                obtain ⟨hreq, hpks⟩ := h
                push_neg at hOK
                obtain ⟨hlenpks, hge⟩ := hOK
                obtain ⟨h1, h2, -, ⟨c, hc⟩⟩ :=
                  msLoopF_sound (rest.length + 1) rest [] n pks2 rest2 hM
                have hplain := GetScriptOp_plain hG (by omega)
                obtain ⟨x, hx⟩ := List.length_eq_one.mp hr1
                have hdec : DecodeOP_N op = op - 80 := by
                  have e0 : ¬ op = OP_0 := by
                    have e : OP_0 = 0 := rfl
                    omega
                  unfold DecodeOP_N
                  rw [if_neg e0]
                  rfl
                have hs : s = (op :: c) ++ [80 + n, x] := by
                  rw [hplain.1, hc, hx]
                  simp
                have hxcm : x = OP_CHECKMULTISIG := by
                  rw [hs] at hlast
                  rw [show (op :: c) ++ [80 + n, x] = ((op :: c) ++ [80 + n]) ++ [x] by simp,
                    List.getLast?_concat] at hlast
                  exact Option.some.inj hlast
                subst hpks
                refine ⟨by omega, by omega, by omega, ⟨op :: c, ?_⟩⟩
                rw [hs, hxcm, hlenpks]
  · intro ht
    simp only [Solver] at ht
    repeat' split at ht
    all_goals simp_all

/-- Witness for C2 at the concrete 1-of-2 multisig script. -/
theorem matchMultisig_bounds_shape_witness :
    (1 ≤ 1 ∧ 1 ≤ ([demoKeyA, demoKeyB] : List (List Nat)).length ∧
      ([demoKeyA, demoKeyB] : List (List Nat)).length ≤ 16 ∧
      ∃ p, demoMultisig = p ++ [80 + ([demoKeyA, demoKeyB] : List (List Nat)).length,
        OP_CHECKMULTISIG]) ∧
    (MatchMultisig demoMultisig).isSome = true := by
  constructor
  · exact (matchMultisig_bounds_shape demoMultisig).1 1 [demoKeyA, demoKeyB] (by decide)
  · exact (matchMultisig_bounds_shape demoMultisig).2 (by decide)

/-- Inversion of the Solver at the Multisig tag: only a successful
MatchMultisig produces it, and the solutions list is the required byte, the
keys and the key-count byte. -/
theorem solver_multisig_inv {s : List Nat} {sols : List (List Nat)}
    (h : Solver s = (true, txnouttype.TX_MULTISIG, sols)) :
    ∃ req keys, MatchMultisig s = some (req, keys) ∧
      sols = [req] :: (keys ++ [[keys.length]]) := by
  unfold Solver at h
  split at h
  case isTrue => simp at h
  case isFalse =>
    split at h
    case isTrue => simp at h
    case isFalse =>
      split at h
      case isTrue => simp at h
      case isFalse =>
        split at h
        case isTrue => simp at h
        case isFalse =>
          split at h
          next d heq => simp at h
          next heq =>
            split at h
            next d heq2 => simp at h
            next heq2 =>
              split at h
              next dc heq3 => simp at h
              next heq3 =>
                split at h
                next rk heq4 =>
                  simp only [Prod.mk.injEq] at h
                  exact ⟨rk.1, rk.2, by rw [heq4], h.2.2.symm⟩
                next heq4 =>
                  split at h <;> simp at h

/-- C5: ExtractDestinations, by Solver tag: NullData fails with an empty
address list; Multisig takes the required count from the leading solution
byte (the MatchMultisig required count), collects the key ids of exactly
the valid keys in order, and fails precisely when none is valid; any other
successful tag delegates to ExtractDestination with required = 1 and a
single-element address list on success. -/
theorem extractDestinations_by_tag (s : List Nat) (n0 : Nat) :
    (∀ sols, Solver s = (true, txnouttype.TX_NULL_DATA, sols) →
      ExtractDestinations s n0 = (false, txnouttype.TX_NULL_DATA, [], n0)) ∧
    (∀ sols, Solver s = (true, txnouttype.TX_MULTISIG, sols) →
      ∃ req keys, MatchMultisig s = some (req, keys) ∧
        sols = [req] :: (keys ++ [[keys.length]]) ∧
        ExtractDestinations s n0 =
          (if collectValidKeyIDs keys = [] then
            (false, txnouttype.TX_MULTISIG, [], req)
          else (true, txnouttype.TX_MULTISIG, collectValidKeyIDs keys, req))) ∧
    (∀ t sols, Solver s = (true, t, sols) →
      t ≠ txnouttype.TX_NULL_DATA → t ≠ txnouttype.TX_MULTISIG →
      ExtractDestinations s n0 =
        (match ExtractDestination s with
          | none => (false, t, [], 1)
          | some address => (true, t, [address], 1))) := by
  refine ⟨?_, ?_, ?_⟩
  · intro sols h
    unfold ExtractDestinations
    rw [h]
    simp
  · intro sols h
    obtain ⟨req, keys, hmm, hsols⟩ := solver_multisig_inv h
    refine ⟨req, keys, hmm, hsols, ?_⟩
    unfold ExtractDestinations
    rw [h]
    simp only [reduceCtorEq, if_false, if_true]
    have hmid : ((sols.drop 1).take (sols.length - 2)) = keys := by
      rw [hsols]
      simp [List.take_left' rfl]
    have hlead : (sols.getD 0 []).getD 0 0 = req := by
      rw [hsols]
      simp
    rw [hmid, hlead]
  · intro t sols h ht1 ht2
    unfold ExtractDestinations
    rw [h]
    simp [ht1, ht2]

/-- Witness for C5 at concrete scripts: the demonstration multisig script
and the demonstration null-data script. -/
theorem extractDestinations_by_tag_witness :
    (∃ req keys, MatchMultisig demoMultisig = some (req, keys) ∧
      ([[1], demoKeyA, demoKeyB, [2]] : List (List Nat)) =
        [req] :: (keys ++ [[keys.length]]) ∧
      ExtractDestinations demoMultisig 9 =
        (if collectValidKeyIDs keys = [] then
          (false, txnouttype.TX_MULTISIG, [], req)
        else (true, txnouttype.TX_MULTISIG, collectValidKeyIDs keys, req))) ∧
    ExtractDestinations demoNullData 9 = (false, txnouttype.TX_NULL_DATA, [], 9) := by
  constructor
  · exact (extractDestinations_by_tag demoMultisig 9).2.1 [[1], demoKeyA, demoKeyB, [2]]
      (by decide)
  · exact (extractDestinations_by_tag demoNullData 9).1 [] (by decide)

/-- Unfolding of the ops count over a leading token. -/
theorem scriptOpsCount_cons (op : Nat) (d : List Nat) (ts : List (Nat × List Nat)) :
    scriptOpsCount ((op, d) :: ts) = scriptOpsCount ts + (if OP_16 < op then 1 else 0) := by
  simp [scriptOpsCount, List.countP_cons]

/-- Fuelled characterization of the syntax-check loop: with enough fuel and
an in-range running count, the loop accepts exactly when the remaining
bytes tokenize completely, every token respects the element-size bound and
avoids the disabled set, and the final opcode count stays within bound. -/
theorem checkSyntaxF_spec (fuel : Nat) :
    ∀ (l : List Nat) (n : Nat), l.length ≤ fuel → n ≤ MAX_OPS_PER_SCRIPT →
    (checkSyntaxF fuel l n = true ↔
      ∃ ts, tokenizeF fuel l = some ts ∧
        (∀ t ∈ ts, t.2.length ≤ MAX_SCRIPT_ELEMENT_SIZE ∧ disabledOpcode t.1 = false) ∧
        n + scriptOpsCount ts ≤ MAX_OPS_PER_SCRIPT) := by
  have eO : MAX_OPS_PER_SCRIPT = 201 := rfl
  induction fuel with
  | zero =>
    intro l n hl hn
    match l with
    | [] =>
      constructor
      · intro _
        exact ⟨[], rfl, by simp, by simpa [scriptOpsCount] using hn⟩
      · intro _
        rfl
    | b :: rest => simp at hl
  | succ f ih =>
    intro l n hl hn
    match l with
    | [] =>
      constructor
      · intro _
        exact ⟨[], rfl, by simp, by simpa [scriptOpsCount] using hn⟩
      · intro _
        rfl
    | b :: rest =>
      rcases hG : GetScriptOp (b :: rest) with - | ⟨op, d, r⟩
      · constructor
        · intro hT
          simp only [checkSyntaxF, hG] at hT
          exact absurd hT (by simp)
        · rintro ⟨ts, hts, -, -⟩
          simp only [tokenizeF, hG] at hts
          exact absurd hts (by simp)
      · have hr : r.length ≤ f := by
          have hlt := GetScriptOp_rest_length hG
          simp only [List.length_cons] at hlt hl
          omega
        by_cases hd : MAX_SCRIPT_ELEMENT_SIZE < d.length
        · constructor
          · intro hT
            simp only [checkSyntaxF, hG, if_pos hd] at hT
            exact absurd hT (by simp)
          · rintro ⟨ts, hts, hall, -⟩
            exfalso
            simp only [tokenizeF, hG] at hts
            rcases htok : tokenizeF f r with - | ts2 <;> rw [htok] at hts
            · exact absurd hts (by simp)
            · simp only [Option.some.injEq] at hts
              subst hts
              have hle : d.length ≤ MAX_SCRIPT_ELEMENT_SIZE := (hall (op, d) (by simp)).1
              omega
        · by_cases hcount : OP_16 < op ∧ MAX_OPS_PER_SCRIPT < n + 1
          · constructor
            · intro hT
              simp only [checkSyntaxF, hG, if_neg hd, if_pos hcount] at hT
              exact absurd hT (by simp)
            · rintro ⟨ts, hts, -, hcnt⟩
              exfalso
              simp only [tokenizeF, hG] at hts
              rcases htok : tokenizeF f r with - | ts2 <;> rw [htok] at hts
              · exact absurd hts (by simp)
              · simp only [Option.some.injEq] at hts
                subst hts
                rw [scriptOpsCount_cons, if_pos hcount.1] at hcnt
                have h2 := hcount.2
                omega
          · by_cases hdis : disabledOpcode op = true
            · constructor
              · intro hT
                simp only [checkSyntaxF, hG, if_neg hd, if_neg hcount, if_pos hdis] at hT
                exact absurd hT (by simp)
              · rintro ⟨ts, hts, hall, -⟩
                exfalso
                simp only [tokenizeF, hG] at hts
                rcases htok : tokenizeF f r with - | ts2 <;> rw [htok] at hts
                · exact absurd hts (by simp)
                · simp only [Option.some.injEq] at hts
                  subst hts
                  have hcontra := (hall (op, d) (by simp)).2
                  rw [hdis] at hcontra
                  exact absurd hcontra (by simp)
            · rw [not_and] at hcount
              have hn2 : (if OP_16 < op then n + 1 else n) ≤ MAX_OPS_PER_SCRIPT := by
                by_cases h96 : OP_16 < op
                · rw [if_pos h96]
                  have := hcount h96
                  omega
                · rw [if_neg h96]
                  exact hn
              have IH := ih r (if OP_16 < op then n + 1 else n) hr hn2
              have hstep : checkSyntaxF (f + 1) (b :: rest) n =
                  checkSyntaxF f r (if OP_16 < op then n + 1 else n) := by
                simp only [checkSyntaxF, hG, if_neg hd, if_neg hdis]
                rw [if_neg]
                rw [not_and]
                intro h96
                have := hcount h96
                omega
              rw [hstep, IH]
              constructor
              · rintro ⟨ts2, htok, hall2, hcnt2⟩
                refine ⟨(op, d) :: ts2, by simp only [tokenizeF, hG, htok], ?_, ?_⟩
                · intro t ht
                  rcases List.mem_cons.mp ht with hh | hh
                  · subst hh
                    constructor
                    · show d.length ≤ MAX_SCRIPT_ELEMENT_SIZE
                      omega
                    · show disabledOpcode op = false
                      simp only [Bool.not_eq_true] at hdis
                      exact hdis
                  · exact hall2 t hh
                · rw [scriptOpsCount_cons]
                  by_cases h96 : OP_16 < op
                  · rw [if_pos h96]
                    rw [if_pos h96] at hcnt2
                    omega
                  · rw [if_neg h96]
                    rw [if_neg h96] at hcnt2
                    omega
              · rintro ⟨ts, hts, hall, hcnt⟩
                simp only [tokenizeF, hG] at hts
                rcases htok : tokenizeF f r with - | ts2 <;> rw [htok] at hts
                · exact absurd hts (by simp)
                · simp only [Option.some.injEq] at hts
                  subst hts
                  refine ⟨ts2, rfl, ?_, ?_⟩
                  · intro t ht
                    exact hall t (by simp [ht])
                  · rw [scriptOpsCount_cons] at hcnt
                    by_cases h96 : OP_16 < op
                    · rw [if_pos h96] at hcnt ⊢
                      omega
                    · rw [if_neg h96] at hcnt ⊢
                      omega

/-- C6: CheckScriptSyntax accepts a script exactly when it tokenizes
completely, no push payload exceeds the maximum element size, no opcode of
the fixed disabled set occurs anywhere in the opcode stream, and the number
of opcodes above OP_16 stays within the per-script ops limit (OP_1..OP_16
and below being exempt from the count); in particular it rejects on any
disabled opcode, any oversized push, any tokenization failure or any
over-count. -/
theorem checkScriptSyntax_characterization (s : List Nat) :
    CheckScriptSyntax s = true ↔
      ∃ ts, tokenize s = some ts ∧
        (∀ t ∈ ts, t.2.length ≤ MAX_SCRIPT_ELEMENT_SIZE ∧ disabledOpcode t.1 = false) ∧
        scriptOpsCount ts ≤ MAX_OPS_PER_SCRIPT := by
  have h := checkSyntaxF_spec s.length s 0 (le_refl _) (by omega)
  simpa [CheckScriptSyntax, tokenize] using h

/-- Witness for C6: a single DUP opcode tokenizes, is not disabled, and is
accepted. -/
theorem checkScriptSyntax_characterization_witness : CheckScriptSyntax [OP_DUP] = true :=
  (checkScriptSyntax_characterization [OP_DUP]).mpr
    ⟨[(118, [])], by decide, by decide, by decide⟩

/-- C7 amended: the color identifiers delivered by the two structured
colored matchers — the colorid output of MatchColoredPayToPubkeyHash and
the second solution entry of the Solver on the ColorScriptHash path — are
exactly 33 bytes with a kind byte of 1, 2 or 3; MatchCustomColoredScript,
however, never writes its colorid out-parameter (the source assigns a
shadow local instead), so that parameter comes back unchanged and carries
no length or kind guarantee. -/
theorem colorIdentifier_shape_amended (s : List Nat) :
    (∀ ph cid, MatchColoredPayToPubkeyHash s = some (ph, cid) →
      cid.length = 33 ∧ (cid[0]? = some 1 ∨ cid[0]? = some 2 ∨ cid[0]? = some 3)) ∧
    (∀ b sols, Solver s = (b, txnouttype.TX_COLOR_SCRIPTHASH, sols) →
      (sols.getD 1 []).length = 33 ∧
        ((sols.getD 1 [])[0]? = some 1 ∨ (sols.getD 1 [])[0]? = some 2 ∨
          (sols.getD 1 [])[0]? = some 3)) ∧
    (∀ c0, (MatchCustomColoredScript s c0).2 = c0) := by
  refine ⟨?_, ?_, ?_⟩
  · intro ph cid h
    unfold MatchColoredPayToPubkeyHash at h
    split at h
    case isFalse => exact absurd h (by simp)
    case isTrue hcond =>
      simp only [Option.some.injEq, Prod.mk.injEq] at h
      obtain ⟨h1, h2⟩ := h
      obtain ⟨hL, h0, hk, -⟩ := hcond
      subst h2
      constructor
      · simp [List.length_take, List.length_drop, hL]
      · have e : ((s.drop 1).take 33)[0]? = s[1]? := by
          rw [List.getElem?_take, if_pos (by omega : (0:Nat) < 33), List.getElem?_drop]
        rw [e]
        exact hk
  · intro b sols h
    unfold Solver at h
    split at h
    case isTrue => simp at h
    case isFalse =>
      split at h
      case isTrue hcond =>
        simp only [Prod.mk.injEq] at h
        obtain ⟨-, -, hsols⟩ := h
        obtain ⟨hL, h0, hk, -⟩ := of_decide_eq_true hcond
        rw [← hsols]
        have hg : (([(s.drop 37).take 20, (s.drop 1).take 33] : List (List Nat)).getD 1 []) =
            (s.drop 1).take 33 := rfl
        rw [hg]
        constructor
        · simp [List.length_take, List.length_drop, hL]
        · have e : ((s.drop 1).take 33)[0]? = s[1]? := by
            rw [List.getElem?_take, if_pos (by omega : (0:Nat) < 33), List.getElem?_drop]
          rw [e]
          exact hk
      case isFalse =>
        split at h
        case isTrue => simp at h
        case isFalse =>
          split at h
          case isTrue => simp at h
          case isFalse =>
            split at h
            next d heq => simp at h
            next heq =>
              split at h
              next d heq2 => simp at h
              next heq2 =>
                split at h
                next dc heq3 => simp at h
                next heq3 =>
                  split at h
                  next rk heq4 => simp at h
                  next heq4 =>
                    split at h <;> simp at h
  · intro c0
    unfold MatchCustomColoredScript
    repeat' split
    all_goals rfl

/-- Counterexample for C7 as stated: MatchCustomColoredScript accepts the
demonstration loose script yet leaves its colorid out-parameter (here a
1-byte blob with first byte 7) untouched, so the produced blob is neither
33 bytes long nor tagged 1, 2 or 3. -/
theorem colorIdentifier_shape_counterexample :
    MatchCustomColoredScript demoLooseColored [7] = (true, [7]) ∧
    (([7] : List Nat).length ≠ 33 ∧ ¬((7 : Nat) = 1 ∨ (7 : Nat) = 2 ∨ (7 : Nat) = 3)) := by
  decide

/-- Witness for C7 amended at concrete colored scripts. -/
theorem colorIdentifier_shape_amended_witness :
    (((1 :: List.replicate 32 5 : List Nat)).length = 33 ∧
      ((1 :: List.replicate 32 5 : List Nat)[0]? = some 1 ∨
        (1 :: List.replicate 32 5 : List Nat)[0]? = some 2 ∨
        (1 :: List.replicate 32 5 : List Nat)[0]? = some 3)) ∧
    ((([demoHash20, 1 :: List.replicate 32 5] : List (List Nat)).getD 1 []).length = 33 ∧
      ((([demoHash20, 1 :: List.replicate 32 5] : List (List Nat)).getD 1 [])[0]? = some 1 ∨
        (([demoHash20, 1 :: List.replicate 32 5] : List (List Nat)).getD 1 [])[0]? = some 2 ∨
        (([demoHash20, 1 :: List.replicate 32 5] : List (List Nat)).getD 1 [])[0]? = some 3)) ∧
    (MatchCustomColoredScript demoCanonicalColored []).2 = [] := by
  refine ⟨?_, ?_, ?_⟩
  · exact (colorIdentifier_shape_amended demoColoredP2PKH).1 demoHash20
      (1 :: List.replicate 32 5) (by decide)
  · exact (colorIdentifier_shape_amended demoColoredP2SH).2.1 true
      [demoHash20, 1 :: List.replicate 32 5] (by decide)
  · exact (colorIdentifier_shape_amended demoCanonicalColored).2.2 []

/-- C8: the source comment documents the pattern push(33-byte colorid)
immediately followed by OP_COLOR, but the distance test compares the
position just after the COLOR opcode against 34, so the matcher rejects the
documented pattern (first conjunct) while accepting a script whose first
0x21 byte is one position later, inside other push data (second
conjunct). -/
theorem matchCustomColored_rejects_documented_pattern :
    (MatchCustomColoredScript demoCanonicalColored []).1 = false ∧
    (MatchCustomColoredScript demoLooseColored []).1 = true := by
  decide
